import Mathlib

/-!
Verification development for the BudgetWise icon-generation scripts
(`scripts/generate_icon.py` and `scripts/generate_store_assets.py`).

The two Python scripts are shallowly embedded below:

* A rendered image is a transparent canvas together with the ordered list of
  drawing operations performed on it (`Img`).  The per-pixel semantics
  (`colorAt`) is painter's-algorithm compositing: a pixel shows the color of
  the last operation that covers it, and the transparent background otherwise.
* Python's float expressions are modelled by exact rational arithmetic, with
  `int(...)` as truncation toward zero (`pyInt`) and `//` on integers as
  flooring division (`Int.fdiv`).  At every concrete input appearing in the
  theorems below the Python float results and the exact rational results
  coincide.
* Pillow's rasterisers are modelled geometrically: `ellipse` covers the
  pixels within the inscribed circle of its bounding box, `rounded_rectangle`
  the box minus the area outside the corner arcs, and a `line` of width `w`
  the pixels within distance `w/2` of one of its segments.
* Font resolution reads font files from the environment, which is not part of
  the repository.  Rendering is therefore parameterised by a font resolver
  (`FontRes`) giving, per requested font size, the measured bounding box of
  the "$" glyph and its raster coverage relative to the drawing anchor.
  `defaultFont` models the `ImageFont.load_default()` fallback environment
  (a fixed small glyph drawn inside its measured box).
-/

namespace BudgetWise

/-- An RGBA color value, one field per channel. -/
structure Color where
  r : ℤ
  g : ℤ
  b : ℤ
  a : ℤ
deriving DecidableEq

/-- The fully transparent background value `(0, 0, 0, 0)` of `Image.new`. -/
def transparent : Color := ⟨0, 0, 0, 0⟩

/-- Python `int(...)` applied to an exact rational: truncation toward zero. -/
def pyInt (q : ℚ) : ℤ := if q < 0 then ⌈q⌉ else ⌊q⌋

/-- A resolved glyph for the text "$": the bounding box returned by
`draw.textbbox((0, 0), "$", font)` as `(b0, b1, b2, b3)`, and the raster
coverage of the glyph relative to the drawing anchor. -/
structure Glyph where
  b0 : ℤ
  b1 : ℤ
  b2 : ℤ
  b3 : ℤ
  cover : ℤ → ℤ → Bool

/-- A font resolver: for each requested font size, the glyph the environment
provides (the scripts' try/except font fallback chain always resolves to some
glyph; which one depends on the machine). -/
def FontRes := ℤ → Glyph

/-- The `ImageFont.load_default()` environment: a fixed-size bitmap glyph,
measured as box `(0, 0, 6, 11)` and drawn exactly inside that box,
independent of the requested size. -/
def defaultGlyph : Glyph :=
  ⟨0, 0, 6, 11, fun x y => decide (0 ≤ x ∧ x < 6 ∧ 0 ≤ y ∧ y < 11)⟩

/-- Font resolver of an environment without TrueType fonts: every requested
size falls back to the default bitmap glyph. -/
def defaultFont : FontRes := fun _ => defaultGlyph

/-- A font environment whose "$" glyph has a tall measured box
`(0, 12, 40, 52)` (left bearing 0, top offset 12), drawn inside that box. -/
def tallGlyph : Glyph :=
  ⟨0, 12, 40, 52, fun x y => decide (0 ≤ x ∧ x < 40 ∧ 12 ≤ y ∧ y < 52)⟩

/-- Font resolver returning `tallGlyph` at every size. -/
def tallFont : FontRes := fun _ => tallGlyph

/-- One drawing operation performed on the canvas. -/
inductive Op where
  | ellipse (cx cy rad : ℤ) (c : Color)
  | rrect (x0 y0 x1 y1 rad : ℤ) (c : Color)
  | line (pts : List (ℤ × ℤ)) (width : ℤ) (c : Color)
  | text (g : Glyph) (px py : ℤ) (c : Color)

/-- The fill color of a drawing operation. -/
def Op.color : Op → Color
  | .ellipse _ _ _ c => c
  | .rrect _ _ _ _ _ c => c
  | .line _ _ c => c
  | .text _ _ _ c => c

/-- The constructor kind of a drawing operation. -/
inductive OpKind where
  | ellipseK
  | rrectK
  | lineK
  | textK
deriving DecidableEq

/-- Kind of an operation. -/
def Op.kind : Op → OpKind
  | .ellipse _ _ _ _ => .ellipseK
  | .rrect _ _ _ _ _ _ => .rrectK
  | .line _ _ _ => .lineK
  | .text _ _ _ _ => .textK

/-- Whether an operation is a filled ellipse (a gradient circle). -/
def Op.isEllipse : Op → Bool
  | .ellipse _ _ _ _ => true
  | _ => false

/-- The draw position of a text operation, if the operation is one. -/
def Op.textPosOf : Op → Option (ℤ × ℤ)
  | .text _ px py _ => some (px, py)
  | _ => none

/-- Does the width-`w` stroke of segment `a`–`b` cover pixel `(x, y)`?
True when the pixel is within distance `w/2` of the segment; all
comparisons are made on integers after clearing denominators. -/
def segCovers (a b : ℤ × ℤ) (w x y : ℤ) : Bool :=
  let dx := b.1 - a.1
  let dy := b.2 - a.2
  let ux := x - a.1
  let uy := y - a.2
  let s := ux * dx + uy * dy
  let len2 := dx * dx + dy * dy
  if s ≤ 0 then
    decide (4 * (ux * ux + uy * uy) ≤ w * w)
  else if len2 ≤ s then
    decide (4 * ((x - b.1) * (x - b.1) + (y - b.2) * (y - b.2)) ≤ w * w)
  else
    decide (4 * ((ux * ux + uy * uy) * len2 - s * s) ≤ w * w * len2)

/-- Coverage of a polyline (`draw.line` with a point list): the union of the
strokes of its consecutive segments. -/
def polyCovers (pts : List (ℤ × ℤ)) (w x y : ℤ) : Bool :=
  (pts.zip (pts.drop 1)).any (fun ab => segCovers ab.1 ab.2 w x y)

/-- Coverage of `draw.rounded_rectangle([x0, y0, x1, y1], radius=rad)`:
inside the box, excluding the four outside-the-arc corner regions. -/
def rrectCovers (x0 y0 x1 y1 rad x y : ℤ) : Bool :=
  decide (x0 ≤ x ∧ x ≤ x1 ∧ y0 ≤ y ∧ y ≤ y1) &&
  !(decide (x < x0 + rad ∧ y < y0 + rad ∧
      (x - (x0 + rad)) * (x - (x0 + rad)) + (y - (y0 + rad)) * (y - (y0 + rad)) > rad * rad)) &&
  !(decide (x1 - rad < x ∧ y < y0 + rad ∧
      (x - (x1 - rad)) * (x - (x1 - rad)) + (y - (y0 + rad)) * (y - (y0 + rad)) > rad * rad)) &&
  !(decide (x < x0 + rad ∧ y1 - rad < y ∧
      (x - (x0 + rad)) * (x - (x0 + rad)) + (y - (y1 - rad)) * (y - (y1 - rad)) > rad * rad)) &&
  !(decide (x1 - rad < x ∧ y1 - rad < y ∧
      (x - (x1 - rad)) * (x - (x1 - rad)) + (y - (y1 - rad)) * (y - (y1 - rad)) > rad * rad))

/-- Does an operation cover pixel `(x, y)`? -/
def Op.covers : Op → ℤ → ℤ → Bool
  | .ellipse cx cy rad _, x, y =>
      decide ((x - cx) * (x - cx) + (y - cy) * (y - cy) ≤ rad * rad)
  | .rrect x0 y0 x1 y1 rad _, x, y => rrectCovers x0 y0 x1 y1 rad x y
  | .line pts w _, x, y => polyCovers pts w x y
  | .text g px py _, x, y => g.cover (x - px) (y - py)

/-- Painter's-algorithm pixel semantics of an ordered list of drawing
operations over a transparent canvas: the color of the last covering
operation, else the transparent background. -/
def colorAt (ops : List Op) (x y : ℤ) : Color :=
  match ops.reverse.find? (fun op => op.covers x y) with
  | some op => op.color
  | none => transparent

/-- A rendered square image: canvas dimensions plus the performed drawing
operations (the canvas of `Image.new('RGBA', ..., (0, 0, 0, 0))` is
transparent before any of them runs). -/
structure Img where
  w : ℕ
  h : ℕ
  ops : List Op

/-- The color of pixel `(x, y)` of a rendered image. -/
def Img.render (img : Img) (x y : ℤ) : Color := colorAt img.ops x y

/-- The draw positions of the text operations of an image, in order. -/
def Img.textOps (img : Img) : List (ℤ × ℤ) := img.ops.filterMap Op.textPosOf

/-- `center = size // 2`, shared by both scripts. -/
def centerOf (size : ℕ) : ℤ := ((size / 2 : ℕ) : ℤ)

/-- The gradient color of circle `i` out of `r`:
`(int(46 + (76-46)*ratio), int(125 + (175-125)*ratio), int(50 + (80-50)*ratio), 255)`
with `ratio = i / r`.  Written with flooring integer division, which agrees
with the Python expression for the arguments `1 ≤ i ≤ r` the gradient loop
produces (proved as part of the gradient theorem below). -/
def gradColor (i r : ℤ) : Color :=
  ⟨46 + Int.fdiv ((76 - 46) * i) r,
   125 + Int.fdiv ((175 - 125) * i) r,
   50 + Int.fdiv ((80 - 50) * i) r,
   255⟩

/-- The gradient loop `for i in range(r, 0, -1): draw.ellipse(...)`: one
filled circle per radius, largest first. -/
def gradientOps (center r : ℤ) : List Op :=
  (List.range r.toNat).map
    (fun k : ℕ => .ellipse center center (r - (k : ℤ)) (gradColor (r - (k : ℤ)) r))

/-- `fill=(255, 255, 255, 245)` of the envelope body. -/
def envColor : Color := ⟨255, 255, 255, 245⟩

/-- `fill=(76, 175, 80, 255)` of the envelope flap. -/
def flapColor : Color := ⟨76, 175, 80, 255⟩

/-- `fill=(46, 125, 50, 255)` of the "$" glyph. -/
def dollarColor : Color := ⟨46, 125, 50, 255⟩

/-- `fill=(129, 199, 132, 255)` of the accent lines. -/
def accentColor : Color := ⟨129, 199, 132, 255⟩

/-- `text_x = center - text_width // 2`. -/
def textX (center w : ℤ) : ℤ := center - w.fdiv 2

/-- `text_y = center - text_height // 4`. -/
def textY (center h : ℤ) : ℤ := center - h.fdiv 4

/-- `line_y1 = int(size * 0.58)`, shared by both scripts. -/
def lineY1 (size : ℕ) : ℤ := Int.tdiv (58 * (size : ℤ)) 100

/-- Icon variant: `font_size = size // 3`. -/
def iconFontSize (size : ℕ) : ℤ := ((size / 3 : ℕ) : ℤ)

/-- Icon variant: `circle_radius = size // 2 - size // 16`. -/
def iconRadius (size : ℕ) : ℤ := ((size / 2 : ℕ) : ℤ) - ((size / 16 : ℕ) : ℤ)

/-- `create_budget_icon` of `generate_icon.py`, over a font resolver. -/
def createIcon (size : ℕ) (font : FontRes) : Img :=
  let center := centerOf size
  let r := iconRadius size
  let envM : ℤ := ((size / 5 : ℕ) : ℤ)
  let envT : ℤ := ((size / 4 : ℕ) : ℤ)
  let envB : ℤ := (size : ℤ) - ((size / 6 : ℕ) : ℤ)
  let cr : ℤ := ((size / 20 : ℕ) : ℤ)
  let g := font (iconFontSize size)
  let y1 : ℤ := lineY1 size
  let lw : ℤ := max 1 ((size / 50 : ℕ) : ℤ)
  ⟨size, size,
    gradientOps center r ++
    [ .rrect envM envT ((size : ℤ) - envM) envB cr envColor,
      .line [(envM, envT + ((size / 16 : ℕ) : ℤ)),
             (center, center - ((size / 16 : ℕ) : ℤ)),
             ((size : ℤ) - envM, envT + ((size / 16 : ℕ) : ℤ))]
            (max 2 ((size / 40 : ℕ) : ℤ)) flapColor,
      .text g (textX center (g.b2 - g.b0)) (textY center (g.b3 - g.b1)) dollarColor,
      .line [(envM + ((size / 10 : ℕ) : ℤ), y1), (center - ((size / 8 : ℕ) : ℤ), y1)]
            lw accentColor,
      .line [(center + ((size / 8 : ℕ) : ℤ), y1),
             ((size : ℤ) - envM - ((size / 10 : ℕ) : ℤ), y1)]
            lw accentColor ]⟩

/-- Store variant: `padding = int(size * padding_ratio)`. -/
def storePad (size : ℕ) (q : ℚ) : ℤ := pyInt ((size : ℚ) * q)

/-- Store variant: `int(k * scale)` where `scale = effective_size / 256` and
`effective_size = size - 2 * padding`.  These products are exact in Python's
float arithmetic (`effective_size / 256` is a dyadic rational and the
numerators stay far below 2^53), and `int(...)` truncates toward zero. -/
def scaled (k : ℤ) (size : ℕ) (pad : ℤ) : ℤ :=
  Int.tdiv (k * ((size : ℤ) - 2 * pad)) 256

/-- Store variant: `circle_radius = effective_size // 2`. -/
def storeRadiusPad (size : ℕ) (pad : ℤ) : ℤ := ((size : ℤ) - 2 * pad).fdiv 2

/-- `create_budget_icon` of `generate_store_assets.py` with the pixel
padding already computed.  (For the accent rows the code also computes
`line_y1 = int(size * 0.58)`; the icon script additionally defines an unused
`line_y2`, which therefore has no counterpart here.) -/
def createStorePad (size : ℕ) (pad : ℤ) (font : FontRes) : Img :=
  let center := centerOf size
  let r := storeRadiusPad size pad
  let envM : ℤ := scaled 51 size pad + pad
  let envT : ℤ := scaled 64 size pad + pad
  let envB : ℤ := (size : ℤ) - scaled 43 size pad - pad
  let cr : ℤ := scaled 13 size pad
  let fo : ℤ := scaled 6 size pad
  let g := font (scaled 85 size pad)
  let y1 : ℤ := lineY1 size
  let lw : ℤ := max 1 (scaled 4 size pad)
  ⟨size, size,
    gradientOps center r ++
    [ .rrect envM envT ((size : ℤ) - envM) envB cr envColor,
      .line [(envM, envT + fo), (center, center - fo), ((size : ℤ) - envM, envT + fo)]
            (max 2 (scaled 6 size pad)) flapColor,
      .text g (textX center (g.b2 - g.b0)) (textY center (g.b3 - g.b1)) dollarColor,
      .line [(envM + scaled 26 size pad, y1), (center - scaled 32 size pad, y1)]
            lw accentColor,
      .line [(center + scaled 32 size pad, y1),
             ((size : ℤ) - envM - scaled 26 size pad, y1)]
            lw accentColor ]⟩

/-- `create_budget_icon(size, padding_ratio)` of `generate_store_assets.py`. -/
def createStore (size : ℕ) (q : ℚ) (font : FontRes) : Img :=
  createStorePad size (storePad size q) font

/-- Store variant: the effective circle radius as a function of the size and
the padding ratio. -/
def storeRadius (size : ℕ) (q : ℚ) : ℤ := storeRadiusPad size (storePad size q)

/-- A composite image: canvas dimensions plus a direct per-pixel color map
(used for the wide tile and the splash screen, which paste a rendered badge
onto a fresh transparent canvas). -/
structure CImg where
  w : ℕ
  h : ℕ
  pix : ℤ → ℤ → Color

/-- View a rendered badge as a composite image. -/
def Img.toC (img : Img) : CImg := ⟨img.w, img.h, img.render⟩

/-- Per-channel mask interpolation used by `Image.paste(im, box, mask)`:
`mask = 255` keeps the source, `mask = 0` keeps the destination. -/
def mix (s d m : ℤ) : ℤ := (s * m + d * (255 - m)) / 255

/-- `img.paste(icon, box, icon)`: the icon's own alpha channel is the mask. -/
def pasteBlend (src dst : Color) : Color :=
  ⟨mix src.r dst.r src.a, mix src.g dst.g src.a, mix src.b dst.b src.a,
   mix src.a dst.a src.a⟩

/-- `base.paste(icon, (px, py), icon)`: inside the pasted box the icon is
alpha-composited over the base; outside it the base is untouched. -/
def pasteOnto (base : CImg) (icon : Img) (px py : ℤ) : CImg :=
  ⟨base.w, base.h, fun x y =>
    if px ≤ x ∧ x < px + (icon.w : ℤ) ∧ py ≤ y ∧ y < py + (icon.h : ℤ) then
      pasteBlend (icon.render (x - px) (y - py)) (base.pix x y)
    else base.pix x y⟩

/-- `Image.new('RGBA', (w, h), (0, 0, 0, 0))`. -/
def emptyCanvas (w h : ℕ) : CImg := ⟨w, h, fun _ _ => transparent⟩

/-- `create_wide_tile(width, height)`: badge at `int(height * 0.7)` with
padding ratio 0.05, pasted at `(int(width * 0.15), (height - icon_size) // 2)`
using its own alpha as mask. -/
def createWideTile (width height : ℕ) (font : FontRes) : CImg :=
  let iconSize : ℕ := (Int.tdiv (7 * (height : ℤ)) 10).toNat
  let icon := createStore iconSize (5 / 100) font
  pasteOnto (emptyCanvas width height) icon
    (Int.tdiv (15 * (width : ℤ)) 100) (((height : ℤ) - (iconSize : ℤ)).fdiv 2)

/-- `create_splash_screen(width, height)`: badge at `min(width, height) // 2`
with padding ratio 0.05, pasted centered using its own alpha as mask. -/
def createSplash (width height : ℕ) (font : FontRes) : CImg :=
  let iconSize : ℕ := min width height / 2
  let icon := createStore iconSize (5 / 100) font
  pasteOnto (emptyCanvas width height) icon
    (((width : ℤ) - (iconSize : ℤ)).fdiv 2) (((height : ℤ) - (iconSize : ℤ)).fdiv 2)

/-- The multi-resolution icon-container file: the frames in order (the first
one is the primary image; the rest are appended via `append_images`), and
the declared frame sizes `sizes=[(img.width, img.height) for img in images]`. -/
structure IcoFile where
  frames : List Img
  declared : List (ℕ × ℕ)

/-- `images[0].save(..., format='ICO', sizes=..., append_images=images[1:])`. -/
def buildIco (images : List Img) : IcoFile :=
  ⟨images, images.map (fun im => (im.w, im.h))⟩

/-- The icon script's fixed size list `[16, 24, 32, 48, 64, 128, 256]`. -/
def iconSizes : List ℕ := [16, 24, 32, 48, 64, 128, 256]

/-- The icon container built by the icon script's `main`. -/
def icoOf (font : FontRes) : IcoFile :=
  buildIco (iconSizes.map (fun s => createIcon s font))

/-- A file written by one of the scripts. -/
inductive Asset where
  | png (c : CImg)
  | ico (f : IcoFile)

/-- The filesystem contents at the paths the scripts touch. -/
abbrev FS := String → Option Asset

/-- The (path, content) pairs one run of `generate_icon.py` writes, in order.
All four paths are distinct, so first-match lookup agrees with
last-write-wins. -/
def iconMainWrites (font : FontRes) : List (String × Asset) :=
  [ ("src/BudgetWise.App/Assets/BudgetWise_32.png", .png (createIcon 32 font).toC),
    ("src/BudgetWise.App/Assets/BudgetWise_256.png", .png (createIcon 256 font).toC),
    ("src/BudgetWise.App/Assets/BudgetWise.ico", .ico (icoOf font)),
    ("src/BudgetWise.App/BudgetWise.ico", .ico (icoOf font)) ]

/-- The store script's fixed catalog of square assets. -/
def squareAssets : List (String × ℕ) :=
  [ ("Square44x44Logo", 44),
    ("Square44x44Logo.targetsize-24_altform-unplated", 24),
    ("Square44x44Logo.targetsize-48_altform-unplated", 48),
    ("Square44x44Logo.targetsize-256_altform-unplated", 256),
    ("Square71x71Logo", 71),
    ("Square150x150Logo", 150),
    ("Square310x310Logo", 310),
    ("StoreLogo", 50),
    ("StoreLogo.scale-200", 100) ]

/-- The (path, content) pairs one run of `generate_store_assets.py` writes,
in order: nine catalog squares at padding 0.1, the wide tile, the splash
screen, and the 24px badge at padding 0.05.  All paths are distinct. -/
def storeMainWrites (font : FontRes) : List (String × Asset) :=
  squareAssets.map
    (fun ns => (ns.1 ++ ".png", Asset.png (createStore ns.2 (1 / 10) font).toC)) ++
  [ ("Wide310x150Logo.png", .png (createWideTile 310 150 font)),
    ("SplashScreen.png", .png (createSplash 620 300 font)),
    ("BadgeLogo.png", .png (createStore 24 (5 / 100) font).toC) ]

/-- Running a write list over a filesystem: each listed path now holds its
written content; other paths are untouched. -/
def runWrites (ws : List (String × Asset)) (fs : FS) : FS :=
  fun p =>
    match ws.lookup p with
    | some a => some a
    | none => fs p

/-! ## General lemmas about the drawing semantics -/

/-- Painter's algorithm: an operation that covers a pixel determines that
pixel's color whenever it is the last operation performed. -/
lemma colorAt_append_single (l : List Op) (op : Op) (x y : ℤ)
    (h : op.covers x y = true) : colorAt (l ++ [op]) x y = op.color := by
  unfold colorAt
  rw [List.reverse_append, List.reverse_singleton, List.singleton_append]
  simp only [List.find?, h]

/-- A pixel covered by no operation keeps the transparent background. -/
lemma colorAt_untouched (ops : List Op) (x y : ℤ)
    (h : ∀ op ∈ ops, op.covers x y = false) : colorAt ops x y = transparent := by
  have hn : ops.reverse.find? (fun op => op.covers x y) = none :=
    List.find?_eq_none.mpr (fun a ha => by simp [h a (List.mem_reverse.mp ha)])
  unfold colorAt
  rw [hn]

/-- The gradient loop performs one circle per radius value. -/
lemma gradientOps_length (c r : ℤ) : (gradientOps c r).length = r.toNat := by
  simp [gradientOps]

/-- The `j`-th gradient circle (0-based, drawing order) has radius `r - j`
and the interpolated fill for that radius. -/
lemma gradientOps_getElem (c r : ℤ) (j : ℕ) (h : j < r.toNat) :
    (gradientOps c r)[j]? = some (.ellipse c c (r - j) (gradColor (r - j) r)) := by
  have hlen : j < (gradientOps c r).length := by simpa [gradientOps_length] using h
  rw [List.getElem?_eq_getElem hlen]
  unfold gradientOps at hlen ⊢
  rw [List.getElem_map, List.getElem_range]

/-- Every gradient operation is a filled ellipse. -/
lemma gradientOps_map_kind (c r : ℤ) :
    (gradientOps c r).map Op.kind = List.replicate r.toNat .ellipseK := by
  apply List.eq_replicate_iff.mpr
  refine ⟨by simp [gradientOps], ?_⟩
  intro b hb
  simp only [gradientOps, List.map_map, List.mem_map] at hb
  obtain ⟨k, _, rfl⟩ := hb
  rfl

/-- The gradient contains no text operation. -/
lemma gradientOps_no_text (c r : ℤ) :
    (gradientOps c r).filterMap Op.textPosOf = [] := by
  apply List.filterMap_eq_nil_iff.mpr
  intro a ha
  simp only [gradientOps, List.mem_map] at ha
  obtain ⟨k, _, rfl⟩ := ha
  rfl

/-- The number of ellipse operations in the gradient is the radius. -/
lemma gradientOps_countP (c r : ℤ) :
    (gradientOps c r).countP Op.isEllipse = r.toNat := by
  have h1 : (gradientOps c r).countP Op.isEllipse = (gradientOps c r).length := by
    apply List.countP_eq_length.mpr
    intro a ha
    simp only [gradientOps, List.mem_map] at ha
    obtain ⟨k, _, rfl⟩ := ha
    rfl
  rw [h1, gradientOps_length]

/-- Taking the length of the left part of an append returns it. -/
lemma take_append_of_length (l₁ l₂ : List Op) (n : ℕ) (h : l₁.length = n) :
    (l₁ ++ l₂).take n = l₁ := by
  rw [← h]
  exact List.take_left l₁ l₂

/-- `int(...)` agrees with the floor for nonnegative ratios. -/
lemma storePad_eq_floor (size : ℕ) (q : ℚ) (h : 0 ≤ q) :
    storePad size q = ⌊(size : ℚ) * q⌋ := by
  unfold storePad pyInt
  exact if_neg (not_lt.mpr (mul_nonneg (Nat.cast_nonneg size) h))

/-- `int(size * 0.1) = size // 10` (the float product is far from the
rounding boundary at every size the scripts use). -/
lemma storePad_tenth (s : ℕ) : storePad s (1 / 10) = (s : ℤ) / 10 := by
  rw [storePad_eq_floor s _ (by norm_num),
    show ((s : ℚ) * (1 / 10)) = (((s : ℤ) : ℚ)) / (((10 : ℕ) : ℚ)) from by push_cast; ring]
  exact Rat.floor_intCast_div_natCast _ _

/-- `int(size * 0.05) = size // 20`. -/
lemma storePad_twentieth (s : ℕ) : storePad s (5 / 100) = (s : ℤ) / 20 := by
  rw [storePad_eq_floor s _ (by norm_num),
    show ((s : ℚ) * (5 / 100)) = (((s : ℤ) : ℚ)) / (((20 : ℕ) : ℚ)) from by push_cast; ring]
  exact Rat.floor_intCast_div_natCast _ _

/-- `int(size * (1/16)) = size // 16`. -/
lemma storePad_sixteenth (s : ℕ) : storePad s (1 / 16) = (s : ℤ) / 16 := by
  rw [storePad_eq_floor s _ (by norm_num),
    show ((s : ℚ) * (1 / 16)) = (((s : ℤ) : ℚ)) / (((16 : ℕ) : ℚ)) from by push_cast; ring]
  exact Rat.floor_intCast_div_natCast _ _

/-- The flooring integer form of one interpolated gradient channel equals the
Python expression `int(base + k * (i / r))`. -/
lemma pyInt_base_mul_div (base k i r : ℤ) (hbase : 0 ≤ base) (hk : 0 ≤ k)
    (hi : 0 ≤ i) (hr : 0 < r) :
    pyInt ((base : ℚ) + (k : ℚ) * ((i : ℚ) / (r : ℚ))) = base + Int.fdiv (k * i) r := by
  have hfrac : (0 : ℚ) ≤ (k : ℚ) * ((i : ℚ) / (r : ℚ)) :=
    mul_nonneg (by exact_mod_cast hk)
      (div_nonneg (by exact_mod_cast hi) (by exact_mod_cast hr.le))
  have hb : (0 : ℚ) ≤ (base : ℚ) := by exact_mod_cast hbase
  have htn : ((r.toNat : ℕ) : ℤ) = r := Int.toNat_of_nonneg hr.le
  unfold pyInt
  rw [if_neg (not_lt.mpr (by linarith))]
  rw [show (k : ℚ) * ((i : ℚ) / (r : ℚ)) = ((k * i : ℤ) : ℚ) / ((r.toNat : ℕ) : ℚ) from by
    rw [show ((r.toNat : ℕ) : ℚ) = (r : ℚ) from by exact_mod_cast htn]
    push_cast
    ring]
  rw [Int.floor_int_add, Rat.floor_intCast_div_natCast, htn, Int.fdiv_eq_ediv _ hr.le]

/-- For the radii the gradient loop produces, the integer-division colors of
the embedding equal the spec formula colors. -/
lemma gradColor_eq_pyInt (i r : ℤ) (h1 : 1 ≤ i) (h2 : i ≤ r) :
    gradColor i r =
      ⟨pyInt (46 + (76 - 46) * ((i : ℚ) / (r : ℚ))),
       pyInt (125 + (175 - 125) * ((i : ℚ) / (r : ℚ))),
       pyInt (50 + (80 - 50) * ((i : ℚ) / (r : ℚ))), 255⟩ := by
  have hr : (0 : ℤ) < r := lt_of_lt_of_le h1 h2
  have hi : (0 : ℤ) ≤ i := le_trans (by norm_num) h1
  have e1 := pyInt_base_mul_div 46 30 i r (by norm_num) (by norm_num) hi hr
  have e2 := pyInt_base_mul_div 125 50 i r (by norm_num) (by norm_num) hi hr
  have e3 := pyInt_base_mul_div 50 30 i r (by norm_num) (by norm_num) hi hr
  unfold gradColor
  rw [Color.mk.injEq]
  refine ⟨?_, ?_, ?_, rfl⟩
  · rw [show ((46 : ℚ) + (76 - 46) * ((i : ℚ) / (r : ℚ))) =
        ((46 : ℤ) : ℚ) + ((30 : ℤ) : ℚ) * ((i : ℚ) / (r : ℚ)) from by norm_num, e1]
    norm_num
  · rw [show ((125 : ℚ) + (175 - 125) * ((i : ℚ) / (r : ℚ))) =
        ((125 : ℤ) : ℚ) + ((50 : ℤ) : ℚ) * ((i : ℚ) / (r : ℚ)) from by norm_num, e2]
    norm_num
  · rw [show ((50 : ℚ) + (80 - 50) * ((i : ℚ) / (r : ℚ))) =
        ((50 : ℤ) : ℚ) + ((30 : ℤ) : ℚ) * ((i : ℚ) / (r : ℚ)) from by norm_num, e3]
    norm_num

/-! ## C1 -/

/-- C1: for every supported size and padding ratio in `[0, 1)` both badge
renderers return an RGBA raster of exactly `size × size` pixels whose
background is allocated fully transparent before any drawing: a pixel that no
drawing operation covers still shows the transparent background afterwards. -/
theorem badge_canvas_square_transparent (size : ℕ) (q : ℚ) (font : FontRes)
    (hq0 : 0 ≤ q) (hq1 : q < 1) :
    (createIcon size font).w = size ∧ (createIcon size font).h = size ∧
    (createStore size q font).w = size ∧ (createStore size q font).h = size ∧
    (∀ x y : ℤ, (∀ op ∈ (createIcon size font).ops, op.covers x y = false) →
      (createIcon size font).render x y = transparent) ∧
    (∀ x y : ℤ, (∀ op ∈ (createStore size q font).ops, op.covers x y = false) →
      (createStore size q font).render x y = transparent) :=
  ⟨rfl, rfl, rfl, rfl,
   fun x y h => colorAt_untouched _ x y h,
   fun x y h => colorAt_untouched _ x y h⟩

/-- Witness for C1: size 32, padding ratio 1/10, corner pixel (0, 0). -/
theorem badge_canvas_square_transparent_witness :
    (0 : ℚ) ≤ 1 / 10 ∧ (1 / 10 : ℚ) < 1 ∧
    (createIcon 32 defaultFont).render 0 0 = transparent :=
  ⟨by norm_num, by norm_num,
   (badge_canvas_square_transparent 32 (1 / 10) defaultFont (by norm_num)
     (by norm_num)).2.2.2.2.1 0 0 (by decide)⟩

/-! ## C2 -/

/-- C2: both renderers first draw exactly `r` concentric filled circles,
radii `r` down to 1 in that (largest-first) order, the radius-`i` circle
filled with `(int(46+(76-46)*(i/r)), int(125+(175-125)*(i/r)),
int(50+(80-50)*(i/r)), 255)`, and under the painter's-algorithm semantics a
later (smaller) circle overdraws the earlier (larger) ones wherever it
covers. -/
theorem gradient_concentric_overdraw (size : ℕ) (font : FontRes) (q : ℚ) :
    ((createIcon size font).ops.take (iconRadius size).toNat =
      gradientOps (centerOf size) (iconRadius size)) ∧
    ((createStore size q font).ops.take (storeRadius size q).toNat =
      gradientOps (centerOf size) (storeRadius size q)) ∧
    (∀ c r : ℤ, (gradientOps c r).length = r.toNat) ∧
    (∀ (c r : ℤ) (j : ℕ), j < r.toNat →
      (gradientOps c r)[j]? = some (.ellipse c c (r - j) (gradColor (r - j) r))) ∧
    (∀ i r : ℤ, 1 ≤ i → i ≤ r →
      gradColor i r =
        ⟨pyInt (46 + (76 - 46) * ((i : ℚ) / (r : ℚ))),
         pyInt (125 + (175 - 125) * ((i : ℚ) / (r : ℚ))),
         pyInt (50 + (80 - 50) * ((i : ℚ) / (r : ℚ))), 255⟩) ∧
    (∀ (l : List Op) (op : Op) (x y : ℤ), op.covers x y = true →
      colorAt (l ++ [op]) x y = op.color) :=
  ⟨take_append_of_length _ _ _ (gradientOps_length _ _),
   take_append_of_length _ _ _ (gradientOps_length _ _),
   gradientOps_length,
   gradientOps_getElem,
   gradColor_eq_pyInt,
   colorAt_append_single⟩

/-- Witness for C2: the first circle of a 7-circle gradient, the color
formula at `i = r = 7`, and overdraw at a concrete covered pixel. -/
theorem gradient_concentric_overdraw_witness :
    (gradientOps 8 7)[0]? = some (.ellipse 8 8 7 (gradColor 7 7)) ∧
    gradColor 7 7 =
      ⟨pyInt (46 + (76 - 46) * ((7 : ℚ) / (7 : ℚ))),
       pyInt (125 + (175 - 125) * ((7 : ℚ) / (7 : ℚ))),
       pyInt (50 + (80 - 50) * ((7 : ℚ) / (7 : ℚ))), 255⟩ ∧
    colorAt ([] ++ [Op.ellipse 0 0 1 envColor]) 0 0 = (Op.ellipse 0 0 1 envColor).color :=
  ⟨(gradient_concentric_overdraw 16 defaultFont (1 / 10)).2.2.2.1 8 7 0 (by decide),
   (gradient_concentric_overdraw 16 defaultFont (1 / 10)).2.2.2.2.1 7 7 (by norm_num)
     (by norm_num),
   (gradient_concentric_overdraw 16 defaultFont (1 / 10)).2.2.2.2.2 []
     (Op.ellipse 0 0 1 envColor) 0 0 (by decide)⟩

/-! ## C3 -/

/-- Pixel-identical images: same dimensions and the same color at every
canvas pixel. -/
def pixelIdentical (a b : Img) : Prop :=
  a.w = b.w ∧ a.h = b.h ∧
  ∀ x y : ℤ, 0 ≤ x → x < (a.w : ℤ) → 0 ≤ y → y < (a.h : ℤ) →
    a.render x y = b.render x y

/-- C3 fails on the code: at size 20 (in the default-font environment) no
padding ratio in `[0, 1)` makes the store variant pixel-identical to the icon
variant — their envelope/gradient geometry is derived differently, and for
every possible pixel padding one of the probe pixels (10, 19), (14, 17)
differs. -/
theorem store_icon_not_pixel_identical :
    ¬ ∃ q : ℚ, 0 ≤ q ∧ q < 1 ∧
      pixelIdentical (createStore 20 q defaultFont) (createIcon 20 defaultFont) := by
  rintro ⟨q, hq0, hq1, _, _, hpix⟩
  have key : ∀ pad : ℕ, pad < 20 →
      ¬((createStorePad 20 (pad : ℤ) defaultFont).render 10 19 =
          (createIcon 20 defaultFont).render 10 19 ∧
        (createStorePad 20 (pad : ℤ) defaultFont).render 14 17 =
          (createIcon 20 defaultFont).render 14 17) := by decide
  have hf0 : 0 ≤ ⌊(20 : ℚ) * q⌋ :=
    Int.floor_nonneg.mpr (mul_nonneg (by norm_num) hq0)
  have hf1 : ⌊(20 : ℚ) * q⌋ < 20 := by
    apply Int.floor_lt.mpr
    push_cast
    nlinarith
  have hpadeq : storePad 20 q = ⌊(20 : ℚ) * q⌋ := storePad_eq_floor 20 q hq0
  have hcast : (((⌊(20 : ℚ) * q⌋).toNat : ℕ) : ℤ) = storePad 20 q := by
    rw [hpadeq]
    exact Int.toNat_of_nonneg hf0
  have hlt : (⌊(20 : ℚ) * q⌋).toNat < 20 := by omega
  apply key (⌊(20 : ℚ) * q⌋).toNat hlt
  have heq : createStorePad 20 (((⌊(20 : ℚ) * q⌋).toNat : ℕ) : ℤ) defaultFont =
      createStore 20 q defaultFont := by
    rw [hcast]
    rfl
  rw [heq]
  have hw : ((createStore 20 q defaultFont).w : ℤ) = 20 := rfl
  have hh : ((createStore 20 q defaultFont).h : ℤ) = 20 := rfl
  exact ⟨hpix 10 19 (by norm_num) (by rw [hw]; norm_num) (by norm_num) (by rw [hh]; norm_num),
         hpix 14 17 (by norm_num) (by rw [hw]; norm_num) (by norm_num) (by rw [hh]; norm_num)⟩

/-- C3 amended: the store renderer reuses the same drawing procedure shape —
whenever its effective radius matches the icon variant's, both images consist
of the same sequence of operation kinds (gradient circles, envelope
rectangle, flap polyline, glyph, two accent lines) — but the geometry is
derived differently (rescaled from a 256-reference rather than recomputed
from size), so the images are not pixel-identical in general. -/
theorem store_icon_same_op_kinds (size : ℕ) (q : ℚ) (font : FontRes)
    (h : storeRadius size q = iconRadius size) :
    (createStore size q font).ops.map Op.kind = (createIcon size font).ops.map Op.kind := by
  show (createStorePad size (storePad size q) font).ops.map Op.kind = _
  simp only [createStorePad, createIcon, List.map_append, gradientOps_map_kind,
    List.map_cons, List.map_nil, Op.kind]
  rw [show storeRadiusPad size (storePad size q) = iconRadius size from h]

/-- Witness for C3's amended theorem: size 16 with padding ratio 1/16 gives
matching radii (7), hence identical operation-kind sequences. -/
theorem store_icon_same_op_kinds_witness :
    (createStore 16 (1 / 16) defaultFont).ops.map Op.kind =
      (createIcon 16 defaultFont).ops.map Op.kind :=
  store_icon_same_op_kinds 16 (1 / 16) defaultFont (by
    show storeRadiusPad 16 (storePad 16 (1 / 16)) = iconRadius 16
    rw [storePad_sixteenth]
    decide)

/-! ## C4 -/

/-- C4 fails on the code: with a glyph measured as box (0, 12, 40, 52) the
icon renderer draws the "$" at (108, 118) on a 256 canvas, so the glyph's
visual vertical extent [130, 170] is centered at 150, not at the canvas
center 128: doubling to stay in integers, `2*118 + (12 + 52) ≠ 2*128`. -/
theorem glyph_not_visually_centered :
    (createIcon 256 tallFont).textOps = [(108, 118)] ∧
    2 * 118 + (12 + 52) ≠ 2 * centerOf 256 := by
  exact ⟨by decide, by decide⟩

/-- C4 amended: the glyph position is computed from the measured bounding box
as `(center - width // 2, center - height // 4)` in both variants; this
centers the measured width horizontally up to the glyph's left bearing and
one pixel of rounding, but it does not in general center the visual extent
vertically (the `// 4` offset is an ad-hoc baseline adjustment). -/
theorem glyph_position_formula (size : ℕ) (q : ℚ) (font : FontRes) :
    ((createIcon size font).textOps =
      [(textX (centerOf size) ((font (iconFontSize size)).b2 - (font (iconFontSize size)).b0),
        textY (centerOf size) ((font (iconFontSize size)).b3 - (font (iconFontSize size)).b1))]) ∧
    ((createStore size q font).textOps =
      [(textX (centerOf size)
          ((font (scaled 85 size (storePad size q))).b2 -
            (font (scaled 85 size (storePad size q))).b0),
        textY (centerOf size)
          ((font (scaled 85 size (storePad size q))).b3 -
            (font (scaled 85 size (storePad size q))).b1))]) ∧
    (∀ c w : ℤ, 0 ≤ w →
      0 ≤ 2 * textX c w + w - 2 * c ∧ 2 * textX c w + w - 2 * c ≤ 1) := by
  refine ⟨?_, ?_, ?_⟩
  · simp [Img.textOps, createIcon, List.filterMap_append, gradientOps_no_text, Op.textPosOf]
  · show (createStorePad size (storePad size q) font).textOps = _
    simp [Img.textOps, createStorePad, List.filterMap_append, gradientOps_no_text,
      Op.textPosOf]
  · intro c w hw
    unfold textX
    rw [Int.fdiv_eq_ediv w (by norm_num)]
    omega

/-- Witness for C4's amended theorem: default font at size 32 (glyph box
(0, 0, 6, 11)) gives draw position (13, 14), and the horizontal bound at
center 16, width 6. -/
theorem glyph_position_formula_witness :
    (createIcon 32 defaultFont).textOps = [(13, 14)] ∧
    0 ≤ 2 * textX 16 6 + 6 - 2 * 16 ∧ 2 * textX 16 6 + 6 - 2 * 16 ≤ 1 :=
  ⟨((glyph_position_formula 32 (1 / 10) defaultFont).1).trans (by decide),
   ((glyph_position_formula 32 (1 / 10) defaultFont).2.2 16 6 (by norm_num)).1,
   ((glyph_position_formula 32 (1 / 10) defaultFont).2.2 16 6 (by norm_num)).2⟩

/-! ## C5 -/

/-- C5 fails on the code if its divisions are read as exact arithmetic: at
size 10 with padding ratio 0.05 the store radius is 5, not
`(10 - 2*10*0.05)/2 = 4.5`, and the icon radius is 5, not
`10/2 - 10/16 = 4.375` — the code truncates with `int()` and `//`. -/
theorem radius_real_formula_false :
    (storeRadius 10 (5 / 100) : ℚ) ≠ ((10 : ℚ) - 2 * 10 * (5 / 100)) / 2 ∧
    (iconRadius 10 : ℚ) ≠ (10 : ℚ) / 2 - (10 : ℚ) / 16 := by
  constructor
  · rw [show storeRadius 10 (5 / 100) = 5 from by
      show storeRadiusPad 10 (storePad 10 (5 / 100)) = 5
      rw [storePad_twentieth]
      decide]
    norm_num
  · rw [show iconRadius 10 = 5 from by decide]
    norm_num

/-- C5 amended: with the code's integer truncations, the store badge draws
exactly `((size - 2*int(size*padding_ratio)) // 2)` gradient circles (its
effective radius) and the icon badge exactly `size // 2 - size // 16`. -/
theorem radius_closed_forms (size : ℕ) (q : ℚ) (font : FontRes) :
    ((createStore size q font).ops.countP Op.isEllipse = (storeRadius size q).toNat) ∧
    ((createIcon size font).ops.countP Op.isEllipse = (iconRadius size).toNat) ∧
    storeRadius size q = ((size : ℤ) - 2 * pyInt ((size : ℚ) * q)).fdiv 2 ∧
    iconRadius size = ((size / 2 : ℕ) : ℤ) - ((size / 16 : ℕ) : ℤ) := by
  refine ⟨?_, ?_, rfl, rfl⟩
  · show (createStorePad size (storePad size q) font).ops.countP Op.isEllipse = _
    simp [createStorePad, List.countP_append, gradientOps_countP, List.countP_cons,
      Op.isEllipse]
    rfl
  · simp [createIcon, List.countP_append, gradientOps_countP, List.countP_cons,
      Op.isEllipse]

/-! ## C6 -/

/-- C6: one run of the icon exporter renders the badge at exactly the fixed
ascending sizes 16, 24, 32, 48, 64, 128, 256; the icon container embeds
exactly 7 frames, one per size in that order, the first one primary, and
each frame's declared width equals its declared height. -/
theorem ico_frames_catalog (font : FontRes) :
    iconSizes = [16, 24, 32, 48, 64, 128, 256] ∧
    List.Pairwise (· < ·) iconSizes ∧
    (icoOf font).frames = iconSizes.map (fun s => createIcon s font) ∧
    (icoOf font).frames.length = 7 ∧
    (icoOf font).frames.head? = some (createIcon 16 font) ∧
    (icoOf font).declared =
      [(16, 16), (24, 24), (32, 32), (48, 48), (64, 64), (128, 128), (256, 256)] ∧
    (∀ p ∈ (icoOf font).declared, p.1 = p.2) := by
  refine ⟨rfl, by decide, rfl, rfl, rfl, rfl, ?_⟩
  intro p hp
  have hd : (icoOf font).declared =
      [(16, 16), (24, 24), (32, 32), (48, 48), (64, 64), (128, 128), (256, 256)] := rfl
  rw [hd] at hp
  fin_cases hp <;> rfl

/-- Witness for C6: the first declared frame size, 16×16, is square. -/
theorem ico_frames_catalog_witness : ((16, 16) : ℕ × ℕ).1 = ((16, 16) : ℕ × ℕ).2 :=
  (ico_frames_catalog defaultFont).2.2.2.2.2.2 (16, 16) (by decide)

/-! ## C7 -/

/-- Pasting leaves pixels outside the pasted box at the base image's color. -/
lemma pasteOnto_pix_out (base : CImg) (icon : Img) (px py x y : ℤ)
    (h : ¬(px ≤ x ∧ x < px + (icon.w : ℤ) ∧ py ≤ y ∧ y < py + (icon.h : ℤ))) :
    (pasteOnto base icon px py).pix x y = base.pix x y := by
  unfold pasteOnto
  exact if_neg h

/-- Pasting alpha-composites the icon over the base inside the pasted box. -/
lemma pasteOnto_pix_in (base : CImg) (icon : Img) (px py x y : ℤ)
    (h : px ≤ x ∧ x < px + (icon.w : ℤ) ∧ py ≤ y ∧ y < py + (icon.h : ℤ)) :
    (pasteOnto base icon px py).pix x y =
      pasteBlend (icon.render (x - px) (y - py)) (base.pix x y) := by
  unfold pasteOnto
  exact if_pos h

/-- C7: the wide tile is exactly 310×150 with the badge rendered at
`int(0.7*150) = 105` with padding ratio 0.05, alpha-composited (own alpha as
mask) left-anchored at `int(0.15*310) = 46` and vertically centered at 22;
the splash is exactly 620×300 with the badge at `min(620,300)//2 = 150`
composited centered at (235, 75); every pixel outside the pasted badge
square stays fully transparent. -/
theorem composite_layouts (font : FontRes) :
    (createWideTile 310 150 font).w = 310 ∧ (createWideTile 310 150 font).h = 150 ∧
    createWideTile 310 150 font =
      pasteOnto (emptyCanvas 310 150) (createStore 105 (5 / 100) font) 46 22 ∧
    (∀ x y : ℤ, 46 ≤ x → x < 151 → 22 ≤ y → y < 127 →
      (createWideTile 310 150 font).pix x y =
        pasteBlend ((createStore 105 (5 / 100) font).render (x - 46) (y - 22)) transparent) ∧
    (∀ x y : ℤ, ¬(46 ≤ x ∧ x < 151 ∧ 22 ≤ y ∧ y < 127) →
      (createWideTile 310 150 font).pix x y = transparent) ∧
    (createSplash 620 300 font).w = 620 ∧ (createSplash 620 300 font).h = 300 ∧
    createSplash 620 300 font =
      pasteOnto (emptyCanvas 620 300) (createStore 150 (5 / 100) font) 235 75 ∧
    (∀ x y : ℤ, 235 ≤ x → x < 385 → 75 ≤ y → y < 225 →
      (createSplash 620 300 font).pix x y =
        pasteBlend ((createStore 150 (5 / 100) font).render (x - 235) (y - 75)) transparent) ∧
    (∀ x y : ℤ, ¬(235 ≤ x ∧ x < 385 ∧ 75 ≤ y ∧ y < 225) →
      (createSplash 620 300 font).pix x y = transparent) := by
  have ew : createWideTile 310 150 font =
      pasteOnto (emptyCanvas 310 150) (createStore 105 (5 / 100) font) 46 22 := rfl
  have es : createSplash 620 300 font =
      pasteOnto (emptyCanvas 620 300) (createStore 150 (5 / 100) font) 235 75 := rfl
  have hww : ((createStore 105 (5 / 100) font).w : ℤ) = 105 := rfl
  have hwh : ((createStore 105 (5 / 100) font).h : ℤ) = 105 := rfl
  have hsw : ((createStore 150 (5 / 100) font).w : ℤ) = 150 := rfl
  have hsh : ((createStore 150 (5 / 100) font).h : ℤ) = 150 := rfl
  refine ⟨rfl, rfl, ew, ?_, ?_, rfl, rfl, es, ?_, ?_⟩
  · intro x y h1 h2 h3 h4
    rw [ew]
    exact pasteOnto_pix_in _ _ _ _ x y
      ⟨h1, by rw [hww]; omega, h3, by rw [hwh]; omega⟩
  · intro x y h
    rw [ew]
    refine pasteOnto_pix_out _ _ _ _ x y ?_
    rw [show (46 + ((createStore 105 (5 / 100) font).w : ℤ)) = 151 from by rw [hww]; norm_num,
      show (22 + ((createStore 105 (5 / 100) font).h : ℤ)) = 127 from by rw [hwh]; norm_num]
    exact h
  · intro x y h1 h2 h3 h4
    rw [es]
    exact pasteOnto_pix_in _ _ _ _ x y
      ⟨h1, by rw [hsw]; omega, h3, by rw [hsh]; omega⟩
  · intro x y h
    rw [es]
    refine pasteOnto_pix_out _ _ _ _ x y ?_
    rw [show (235 + ((createStore 150 (5 / 100) font).w : ℤ)) = 385 from by rw [hsw]; norm_num,
      show (75 + ((createStore 150 (5 / 100) font).h : ℤ)) = 225 from by rw [hsh]; norm_num]
    exact h

/-- Witness for C7: the wide tile's and splash's top-left pixels, outside the
pasted squares, are transparent. -/
theorem composite_layouts_witness :
    (createWideTile 310 150 defaultFont).pix 0 0 = transparent ∧
    (createSplash 620 300 defaultFont).pix 0 0 = transparent :=
  ⟨(composite_layouts defaultFont).2.2.2.2.1 0 0 (by norm_num),
   (composite_layouts defaultFont).2.2.2.2.2.2.2.2.2 0 0 (by norm_num)⟩

/-! ## C8 -/

/-- Overwriting a path list twice leaves the filesystem exactly as after one
pass: the written contents do not depend on the prior filesystem state. -/
lemma runWrites_idem (ws : List (String × Asset)) (fs : FS) (p : String) :
    runWrites ws (runWrites ws fs) p = runWrites ws fs p := by
  unfold runWrites
  cases h : ws.lookup p <;> simp [h]

/-- C8: with the same font environment, running either script's rendering
pipeline twice produces identical contents at every path — the writes are a
deterministic function of the fixed catalog and font resolution, with no
randomness or timestamp entering any drawing step. -/
theorem rerun_outputs_identical (font : FontRes) (fs : FS) (p : String) :
    runWrites (iconMainWrites font) (runWrites (iconMainWrites font) fs) p =
      runWrites (iconMainWrites font) fs p ∧
    runWrites (storeMainWrites font) (runWrites (storeMainWrites font) fs) p =
      runWrites (storeMainWrites font) fs p :=
  ⟨runWrites_idem _ _ _, runWrites_idem _ _ _⟩

/-! ## C9 -/

/-- C9 fails on the code as stated for every positive size: at size 1 with
padding ratio 1/2 > 0 the computed pixel padding `int(1 * 0.5)` is 0 and the
last accent line covers the (single) corner pixel, which therefore ends
non-transparent whatever the font environment does. -/
theorem corner_not_transparent_size1 :
    (0 : ℚ) < 1 / 2 ∧ (createStore 1 (1 / 2) defaultFont).render 0 0 ≠ transparent := by
  constructor
  · norm_num
  · have hpad : storePad 1 (1 / 2) = 0 := by
      rw [storePad_eq_floor 1 _ (by norm_num)]
      norm_num
    show (createStorePad 1 (storePad 1 (1 / 2)) defaultFont).render 0 0 ≠ transparent
    rw [hpad]
    decide

/-- The badge images one run of the store script renders with positive
padding ratio, in the default-font environment model: the nine catalog
squares (ratio 0.1), the wide tile's and splash screen's internal badges and
the badge logo (ratio 0.05). -/
def storeProducedBadges : List Img :=
  [createStore 44 (1 / 10) defaultFont, createStore 24 (1 / 10) defaultFont,
   createStore 48 (1 / 10) defaultFont, createStore 256 (1 / 10) defaultFont,
   createStore 71 (1 / 10) defaultFont, createStore 150 (1 / 10) defaultFont,
   createStore 310 (1 / 10) defaultFont, createStore 50 (1 / 10) defaultFont,
   createStore 100 (1 / 10) defaultFont, createStore 105 (5 / 100) defaultFont,
   createStore 150 (5 / 100) defaultFont, createStore 24 (5 / 100) defaultFont]

/-- C9 amended: every badge image the store script actually produces with
positive padding ratio has fully transparent pixels at its four corners — no
drawing operation reaches them there. -/
theorem produced_badges_transparent_corners :
    squareAssets.map Prod.snd = [44, 24, 48, 256, 71, 150, 310, 50, 100] ∧
    ∀ img ∈ storeProducedBadges,
      img.render 0 0 = transparent ∧
      img.render ((img.w : ℤ) - 1) 0 = transparent ∧
      img.render 0 ((img.h : ℤ) - 1) = transparent ∧
      img.render ((img.w : ℤ) - 1) ((img.h : ℤ) - 1) = transparent := by
  have e44 : createStore 44 (1 / 10) defaultFont = createStorePad 44 4 defaultFont := by
    unfold createStore; rw [storePad_tenth]; exact rfl
  have e24a : createStore 24 (1 / 10) defaultFont = createStorePad 24 2 defaultFont := by
    unfold createStore; rw [storePad_tenth]; exact rfl
  have e48 : createStore 48 (1 / 10) defaultFont = createStorePad 48 4 defaultFont := by
    unfold createStore; rw [storePad_tenth]; exact rfl
  have e256 : createStore 256 (1 / 10) defaultFont = createStorePad 256 25 defaultFont := by
    unfold createStore; rw [storePad_tenth]; exact rfl
  have e71 : createStore 71 (1 / 10) defaultFont = createStorePad 71 7 defaultFont := by
    unfold createStore; rw [storePad_tenth]; exact rfl
  have e150a : createStore 150 (1 / 10) defaultFont = createStorePad 150 15 defaultFont := by
    unfold createStore; rw [storePad_tenth]; exact rfl
  have e310 : createStore 310 (1 / 10) defaultFont = createStorePad 310 31 defaultFont := by
    unfold createStore; rw [storePad_tenth]; exact rfl
  have e50 : createStore 50 (1 / 10) defaultFont = createStorePad 50 5 defaultFont := by
    unfold createStore; rw [storePad_tenth]; exact rfl
  have e100 : createStore 100 (1 / 10) defaultFont = createStorePad 100 10 defaultFont := by
    unfold createStore; rw [storePad_tenth]; exact rfl
  have e105 : createStore 105 (5 / 100) defaultFont = createStorePad 105 5 defaultFont := by
    unfold createStore; rw [storePad_twentieth]; exact rfl
  have e150b : createStore 150 (5 / 100) defaultFont = createStorePad 150 7 defaultFont := by
    unfold createStore; rw [storePad_twentieth]; exact rfl
  have e24b : createStore 24 (5 / 100) defaultFont = createStorePad 24 1 defaultFont := by
    unfold createStore; rw [storePad_twentieth]; exact rfl
  refine ⟨rfl, ?_⟩
  intro img h
  simp only [storeProducedBadges, e44, e24a, e48, e256, e71, e150a, e310, e50, e100,
    e105, e150b, e24b, List.mem_cons, List.not_mem_nil, or_false] at h
  rcases h with rfl | rfl | rfl | rfl | rfl | rfl | rfl | rfl | rfl | rfl | rfl | rfl <;>
    exact ⟨by decide, by decide, by decide, by decide⟩

/-- Witness for C9's amended theorem: the 44px catalog badge's top-left
corner is transparent. -/
theorem produced_badges_transparent_corners_witness :
    (createStore 44 (1 / 10) defaultFont).render 0 0 = transparent :=
  (produced_badges_transparent_corners.2 (createStore 44 (1 / 10) defaultFont)
    (by unfold storeProducedBadges; exact List.mem_cons_self _ _)).1

/-! ## C10 -/

/-- C10: rendering at size 16 completes in both variants with 12 drawing
operations each (7 gradient circles, envelope, flap, glyph, two accent
lines); the flap stroke width is clamped up to its 2px minimum and the
accent width to its 1px minimum, so the small-size path is degenerate but
valid. -/
theorem size16_degenerate_but_valid (font : FontRes) :
    (createIcon 16 font).w = 16 ∧ (createIcon 16 font).h = 16 ∧
    (createIcon 16 font).ops.length = 12 ∧
    (createIcon 16 font).ops[8]? = some (.line [(3, 5), (8, 7), (13, 5)] 2 flapColor) ∧
    (createIcon 16 font).ops[10]? = some (.line [(4, 9), (6, 9)] 1 accentColor) ∧
    (createIcon 16 font).ops[11]? = some (.line [(10, 9), (12, 9)] 1 accentColor) ∧
    (createStore 16 (1 / 10) font).w = 16 ∧ (createStore 16 (1 / 10) font).h = 16 ∧
    (createStore 16 (1 / 10) font).ops.length = 12 ∧
    (createStore 16 (1 / 10) font).ops[8]? =
      some (.line [(3, 4), (8, 8), (13, 4)] 2 flapColor) ∧
    (createStore 16 (1 / 10) font).ops[10]? =
      some (.line [(4, 9), (7, 9)] 1 accentColor) ∧
    (createStore 16 (1 / 10) font).ops[11]? =
      some (.line [(9, 9), (12, 9)] 1 accentColor) := by
  have est : createStore 16 (1 / 10) font = createStorePad 16 1 font := by
    unfold createStore; rw [storePad_tenth]; exact rfl
  refine ⟨rfl, rfl, rfl, rfl, rfl, rfl, ?_, ?_, ?_, ?_, ?_, ?_⟩ <;> rw [est]
  · rfl
  · rfl
  · rfl
  · rfl
  · rfl
  · rfl

end BudgetWise
